import Mathlib

/-!
Shallow embedding of the baseline/trend core of the CI-CD-Symphony repository,
file `scripts/update-baseline.js` (class `BaselineUpdater`), together with
theorems settling the specification claims about it.

Numbers are modelled as rationals (`ℚ`); the JavaScript values that can leave
the finite range through division by zero are modelled by an explicit `JsNum`
type with signed infinities and NaN.  Optional metric fields (the JS pattern
`results.m && typeof results.m.x === 'number'`) are modelled as `Option ℚ`.
-/

namespace CICDSymphony

/-- JS number results of a division: a finite rational, `Infinity`,
`-Infinity`, or `NaN`. -/
inductive JsNum where
  | finite (q : ℚ)
  | posInf
  | negInf
  | nan
deriving DecidableEq, Repr

/-- JS division `a / b` on finite operands: division by zero yields a signed
infinity (or NaN when the numerator is also zero) instead of an error. -/
def jsDiv (a b : ℚ) : JsNum :=
  if b ≠ 0 then .finite (a / b)
  else if 0 < a then .posInf
  else if a < 0 then .negInf
  else .nan

/-- Multiplying a JS number by the positive constant `100`
(the `* 100` step of `changePercent`); infinities and NaN are preserved. -/
def JsNum.mul100 : JsNum → JsNum
  | .finite q => .finite (q * 100)
  | .posInf => .posInf
  | .negInf => .negInf
  | .nan => .nan

/-- JS `Math.round`: round half toward positive infinity. -/
def jsRound (q : ℚ) : ℤ := ⌊q + 1/2⌋

/-- JS `x || null` applied to an optional numeric value: a present value of
`0` is falsy in JS and collapses to `null` (used by `updateHistory` and
`generateSummary`, which read `baseline.performance?.performance || null`). -/
def jsOrNull (v : Option ℚ) : Option ℚ :=
  match v with
  | some q => if q = 0 then none else some q
  | none => none

/-- A metrics snapshot (`analysis-results.json`) as consumed by the updater.
Each metric field is the numeric payload guarded in JS by
`results.m && typeof results.m.<x> === 'number'`; `none` models an absent or
non-numeric metric. -/
structure Snapshot where
  performance : Option ℚ
  coverage : Option ℚ
  bundleSize : Option ℚ
  timestamp : String
  commit : String
  branch : String
deriving DecidableEq, Repr

/-- Provenance metadata written into a baseline (`createBaseline`).  The JS
defaults (`process.env.GITHUB_ACTOR || 'automated'`) are resolved before the
core logic, so plain strings here. -/
structure Metadata where
  creator : String
  repository : String
  workflow : String
  runId : String
deriving DecidableEq, Repr

/-- One per-metric delta record produced by `calculateDelta`.  The
`changePercent` field is an `Option` so that the spec's "omitted" is
expressible; the code itself always assigns it (see `calculateDelta`). -/
structure DeltaEntry where
  current : ℚ
  baseline : ℚ
  change : ℚ
  changePercent : Option JsNum
deriving DecidableEq, Repr

/-- The delta object returned by `calculateDelta` when a baseline exists. -/
structure Delta where
  performance : Option DeltaEntry
  coverage : Option DeltaEntry
  bundleSize : Option DeltaEntry
  timestamp : String
  commit : String
deriving DecidableEq, Repr

/-- A persisted baseline record (`createBaseline`). -/
structure Baseline where
  version : String
  created : String
  commit : String
  branch : String
  performance : Option ℚ
  coverage : Option ℚ
  bundleSize : Option ℚ
  metadata : Metadata
  delta : Option Delta
deriving DecidableEq, Repr

/-- `calculateDelta(current, baseline)`: `null` when there is no baseline;
otherwise one entry per metric present (numeric) in both snapshots, with
`change = current - baseline` and
`changePercent = ((current - baseline) / baseline) * 100` computed with JS
division semantics (no guard against a zero baseline value). -/
def calculateDelta (current : Snapshot) (baseline : Option Baseline) : Option Delta :=
  match baseline with
  | none => none
  | some b =>
    some
      { performance :=
          match current.performance, b.performance with
          | some c, some p => some ⟨c, p, c - p, some ((jsDiv (c - p) p).mul100)⟩
          | _, _ => none
        coverage :=
          match current.coverage, b.coverage with
          | some c, some p => some ⟨c, p, c - p, some ((jsDiv (c - p) p).mul100)⟩
          | _, _ => none
        bundleSize :=
          match current.bundleSize, b.bundleSize with
          | some c, some p => some ⟨c, p, c - p, some ((jsDiv (c - p) p).mul100)⟩
          | _, _ => none
        timestamp := current.timestamp
        commit := current.commit }

/-- The human-readable issue strings pushed by `isAcceptableForBaseline`,
modelled as tagged values carrying the numbers interpolated into the string. -/
inductive Issue where
  | performanceTooLow (value : ℚ)
  | coverageTooLow (value : ℚ)
  | bundleTooLarge (sizeKB : ℤ)
deriving DecidableEq, Repr

/-- The object returned by `isAcceptableForBaseline` (the constant `criteria`
table it also returns is omitted). -/
structure GateResult where
  acceptable : Bool
  score : ℚ
  issues : List Issue
deriving DecidableEq, Repr

/-- `isAcceptableForBaseline(results)`: each present metric contributes its
weight (performance 30, coverage 40, bundleSize 30) to `totalWeight`, and to
`score` only when it satisfies its bound (performance ≥ 70, coverage ≥ 60,
`Math.round(bytes/1024) ≤ 1000`); `percentage = score/totalWeight*100` when
`totalWeight > 0`, else `0`; `acceptable = percentage ≥ 70`.  Each metric
block yields the triple (score contribution, weight contribution, issues). -/
def isAcceptableForBaseline (results : Snapshot) : GateResult :=
  let perfPart : ℚ × ℚ × List Issue :=
    match results.performance with
    | some perf =>
      if perf ≥ 70 then (30, 30, [])
      else (0, 30, [Issue.performanceTooLow perf])
    | none => (0, 0, [])
  let covPart : ℚ × ℚ × List Issue :=
    match results.coverage with
    | some cov =>
      if cov ≥ 60 then (40, 40, [])
      else (0, 40, [Issue.coverageTooLow cov])
    | none => (0, 0, [])
  let bundlePart : ℚ × ℚ × List Issue :=
    match results.bundleSize with
    | some total =>
      let sizeKB := jsRound (total / 1024)
      if sizeKB ≤ 1000 then (30, 30, [])
      else (0, 30, [Issue.bundleTooLarge sizeKB])
    | none => (0, 0, [])
  let score := perfPart.1 + covPart.1 + bundlePart.1
  let totalWeight := perfPart.2.1 + covPart.2.1 + bundlePart.2.1
  let issues := perfPart.2.2 ++ covPart.2.2 ++ bundlePart.2.2
  let percentage := if totalWeight > 0 then score / totalWeight * 100 else 0
  { acceptable := decide (percentage ≥ 70), score := percentage, issues := issues }

/-- One entry of the persisted history (`updateHistory` push).  The JS reads
`baseline.performance?.performance || null`, so a present value of `0`
collapses to `null` (`jsOrNull`). -/
structure HistoryEntry where
  timestamp : String
  commit : String
  branch : String
  performance : Option ℚ
  coverage : Option ℚ
  bundleSize : Option ℚ
  actor : String
  runId : String
deriving DecidableEq, Repr

/-- The entry appended to the history for an accepted baseline. -/
def historyEntryOf (baseline : Baseline) : HistoryEntry :=
  { timestamp := baseline.created
    commit := baseline.commit
    branch := baseline.branch
    performance := jsOrNull baseline.performance
    coverage := jsOrNull baseline.coverage
    bundleSize := jsOrNull baseline.bundleSize
    actor := baseline.metadata.creator
    runId := baseline.metadata.runId }

/-- `updateHistory`: push the new entry, then keep only the last 50 entries
(`history.slice(-50)` when the length exceeds 50). -/
def updateHistory (history : List HistoryEntry) (baseline : Baseline) : List HistoryEntry :=
  let h := history ++ [historyEntryOf baseline]
  if h.length > 50 then h.drop (h.length - 50) else h

/-- Trend labels produced by `analyzeTrend`. -/
inductive Trend where
  | insufficient_data
  | stable
  | improving
  | worsening
deriving DecidableEq, Repr

/-- Direction labels produced by `analyzeTrend`. -/
inductive Direction where
  | no_change
  | increasing
  | decreasing
deriving DecidableEq, Repr

/-- The record returned by `analyzeTrend` (`slope`/`direction` absent in the
insufficient-data case). -/
structure TrendResult where
  trend : Trend
  slope : Option ℚ
  direction : Option Direction
deriving DecidableEq, Repr

/-- `xSum`: the closed form `n*(n-1)/2` the code uses for the sum of the
indices `0..n-1`. -/
def xSum (values : List ℚ) : ℚ :=
  (values.length : ℚ) * ((values.length : ℚ) - 1) / 2

/-- `ySum`: the sum of the values. -/
def ySum (values : List ℚ) : ℚ := values.sum

/-- `xySum`: `reduce((sum, val, idx) => sum + val*idx, 0)`. -/
def xySum (values : List ℚ) : ℚ :=
  (values.enum.map (fun p => p.2 * (p.1 : ℚ))).sum

/-- `x2Sum`: `reduce((sum, val, idx) => sum + idx*idx, 0)`. -/
def x2Sum (values : List ℚ) : ℚ :=
  (values.enum.map (fun p => ((p.1 : ℚ)) * (p.1 : ℚ))).sum

/-- The denominator `n*x2Sum - xSum*xSum` of the regression slope. -/
def slopeDenominator (values : List ℚ) : ℚ :=
  (values.length : ℚ) * x2Sum values - xSum values * xSum values

/-- The ordinary-least-squares slope computed by `analyzeTrend`. -/
def slopeOf (values : List ℚ) : ℚ :=
  ((values.length : ℚ) * xySum values - xSum values * ySum values) / slopeDenominator values

/-- `analyzeTrend(values, inverse)`: fewer than 2 values gives
`insufficient_data`; `|slope| < 0.5` gives `stable`; otherwise the slope is
compared against `threshold = inverse ? -1 : 1`, and the branch taken
determines both the improving/worsening label and the direction label. -/
def analyzeTrend (values : List ℚ) (inverse : Bool) : TrendResult :=
  if values.length < 2 then ⟨.insufficient_data, none, none⟩
  else
    let slope := slopeOf values
    let threshold : ℚ := if inverse then -1 else 1
    if |slope| < 1/2 then ⟨.stable, some slope, some .no_change⟩
    else if slope > threshold then
      ⟨if inverse then .worsening else .improving, some slope, some .increasing⟩
    else
      ⟨if inverse then .improving else .worsening, some slope, some .decreasing⟩

/-- The shape of the persisted trend analysis: `generateTrendAnalysis` returns
an insufficient-data marker below 2 history entries, otherwise one
`TrendResult` per metric. -/
inductive TrendReport where
  | insufficientHistory
  | analysis (performance coverage bundleSize : TrendResult)
deriving DecidableEq, Repr

/-- `generateTrendAnalysis(history)`: per-metric trend over the last 5
entries (`history.slice(-5)`), with `null` values filtered out;
`bundleSize` is analyzed with `inverse = true`. -/
def generateTrendAnalysis (history : List HistoryEntry) : TrendReport :=
  if history.length < 2 then .insufficientHistory
  else
    let recent := history.drop (history.length - 5)
    .analysis
      (analyzeTrend (recent.filterMap (fun h => h.performance)) false)
      (analyzeTrend (recent.filterMap (fun h => h.coverage)) false)
      (analyzeTrend (recent.filterMap (fun h => h.bundleSize)) true)

/-- The execution context read from the environment by the orchestrator
(`GITHUB_REF_NAME`, `GITHUB_EVENT_NAME`, the wall clock, and the metadata
variables, with their JS `|| default` fallbacks already resolved). -/
structure Env where
  refName : String
  eventName : String
  now : String
  actor : String
  repository : String
  workflow : String
  runId : String
deriving DecidableEq, Repr

/-- The state of a persisted file: missing, present but unparsable JSON, or a
parsed value. -/
inductive FileData (α : Type) where
  | absent
  | malformed
  | ok (value : α)
deriving DecidableEq, Repr

/-- `loadBaseline`: a missing file is `null`; a parse failure is caught,
logged (`console.warn`, the `Bool` component) and also yields `null`. -/
def loadBaseline : FileData Baseline → Option Baseline × Bool
  | .absent => (none, false)
  | .malformed => (none, true)
  | .ok b => (some b, false)

/-- `loadHistory`: a missing file is `[]`; a parse failure is caught, logged
(`console.warn`, the `Bool` component) and also yields `[]`. -/
def loadHistory : FileData (List HistoryEntry) → List HistoryEntry × Bool
  | .absent => ([], false)
  | .malformed => ([], true)
  | .ok h => (h, false)

/-- `createBaseline(results, delta)`. -/
def createBaseline (env : Env) (results : Snapshot) (delta : Option Delta) : Baseline :=
  { version := "1.0.0"
    created := env.now
    commit := results.commit
    branch := results.branch
    performance := results.performance
    coverage := results.coverage
    bundleSize := results.bundleSize
    metadata :=
      { creator := env.actor
        repository := env.repository
        workflow := env.workflow
        runId := env.runId }
    delta := delta }

/-- The rejection record written on gate failure (the constant `criteria`
table the code also serializes is omitted). -/
structure RejectionRecord where
  timestamp : String
  commit : String
  reason : String
  score : ℚ
  issues : List Issue
deriving DecidableEq, Repr

/-- The summary record written by `generateSummary`; its metric fields use
the same `|| null` reads as the history entry. -/
structure Summary where
  action : String
  timestamp : String
  commit : String
  branch : String
  performance : Option ℚ
  coverage : Option ℚ
  bundleSize : Option ℚ
  delta : Option Delta
  trends : TrendReport
  metadata : Metadata
deriving DecidableEq, Repr

/-- `generateSummary(baseline, delta, trendAnalysis, isUpdate)`. -/
def generateSummary (env : Env) (baseline : Baseline) (delta : Option Delta)
    (trends : TrendReport) (isUpdate : Bool) : Summary :=
  { action := if isUpdate then "updated" else "created"
    timestamp := env.now
    commit := baseline.commit
    branch := baseline.branch
    performance := jsOrNull baseline.performance
    coverage := jsOrNull baseline.coverage
    bundleSize := jsOrNull baseline.bundleSize
    delta := delta
    trends := trends
    metadata := baseline.metadata }

/-- JS `toLowerCase`, modelled character by character over the string's
character list. -/
def jsToLower (s : String) : String := String.mk (s.data.map Char.toLower)

/-- `checkIfMainBranch`: the lower-cased branch name must be one of
`main`, `master`, `develop`. -/
def checkIfMainBranch (refName : String) : Bool :=
  ["main", "master", "develop"].contains (jsToLower refName)

/-- The persisted files the orchestrator reads and writes. -/
structure FS where
  baselineFile : FileData Baseline
  historyFile : FileData (List HistoryEntry)
  rejectionFile : Option RejectionRecord
  trendsFile : Option TrendReport
  summaryFile : Option Summary
deriving DecidableEq, Repr

/-- The outcome of one `run()` invocation: the resulting file state and the
process exit code. -/
structure RunResult where
  fs : FS
  exitCode : ℕ
deriving DecidableEq, Repr

/-- `run()`: guard on branch and event (silent zero-exit halt), fail with
exit 1 when the candidate snapshot is missing or unparsable
(`loadCurrentResults` throws and the catch block calls `process.exit(1)`),
write only a rejection record when the gate fails (still exit 0), and
otherwise write the new baseline, capped history, trend analysis and
summary. -/
def run (env : Env) (results : FileData Snapshot) (fs : FS) : RunResult :=
  if checkIfMainBranch env.refName = false then ⟨fs, 0⟩
  else if env.eventName ≠ "push" then ⟨fs, 0⟩
  else
    match results with
    | .absent => ⟨fs, 1⟩
    | .malformed => ⟨fs, 1⟩
    | .ok currentResults =>
      let existingBaseline := (loadBaseline fs.baselineFile).1
      let acceptability := isAcceptableForBaseline currentResults
      if acceptability.acceptable = false then
        ⟨{ fs with
            rejectionFile := some
              { timestamp := env.now
                commit := currentResults.commit
                reason := "metrics_not_acceptable"
                score := acceptability.score
                issues := acceptability.issues } }, 0⟩
      else
        let delta := calculateDelta currentResults existingBaseline
        let newBaseline := createBaseline env currentResults delta
        let updatedHistory := updateHistory (loadHistory fs.historyFile).1 newBaseline
        let trendAnalysis := generateTrendAnalysis updatedHistory
        let summary :=
          generateSummary env newBaseline delta trendAnalysis existingBaseline.isSome
        ⟨{ baselineFile := .ok newBaseline
           historyFile := .ok updatedHistory
           rejectionFile := fs.rejectionFile
           trendsFile := some trendAnalysis
           summaryFile := some summary }, 0⟩

/-! ## Spec-side reformulation of the Acceptance Gate

These definitions follow the specification's wording (per-metric weights and
bounds summed over the metrics present), to be compared with the embedded
`isAcceptableForBaseline` above. -/

/-- Spec-side: the performance contribution to the gate score. -/
def specPerfScore (r : Snapshot) : ℚ :=
  match r.performance with
  | some p => if p ≥ 70 then 30 else 0
  | none => 0

/-- Spec-side: the coverage contribution to the gate score. -/
def specCovScore (r : Snapshot) : ℚ :=
  match r.coverage with
  | some c => if c ≥ 60 then 40 else 0
  | none => 0

/-- Spec-side: the bundle-size contribution to the gate score. -/
def specBundleScore (r : Snapshot) : ℚ :=
  match r.bundleSize with
  | some t => if jsRound (t / 1024) ≤ 1000 then 30 else 0
  | none => 0

/-- Spec-side: the sum of the weights of the metrics present. -/
def specTotalWeight (r : Snapshot) : ℚ :=
  (if r.performance.isSome then 30 else 0) +
  (if r.coverage.isSome then 40 else 0) +
  (if r.bundleSize.isSome then 30 else 0)

/-- Spec-side: the total gate score before normalization. -/
def specScore (r : Snapshot) : ℚ :=
  specPerfScore r + specCovScore r + specBundleScore r

/-- The gate's returned score is the spec's normalized percentage, and its
`acceptable` flag is exactly the `≥ 70` test on that score. -/
lemma gate_char (r : Snapshot) :
    (isAcceptableForBaseline r).score =
      (if 0 < specTotalWeight r then specScore r / specTotalWeight r * 100 else 0) ∧
    (isAcceptableForBaseline r).acceptable =
      decide (70 ≤ (isAcceptableForBaseline r).score) := by
  obtain ⟨p, c, b, ts, cm, br⟩ := r
  refine ⟨?_, rfl⟩
  cases p <;> cases c <;> cases b <;>
    simp only [isAcceptableForBaseline, specScore, specPerfScore, specCovScore,
      specBundleScore, specTotalWeight, Option.isSome_none, Option.isSome_some] <;>
    split_ifs <;> simp_all

/-- `jsRound` is monotone. -/
lemma jsRound_mono {a b : ℚ} (h : a ≤ b) : jsRound a ≤ jsRound b :=
  Int.floor_le_floor (by linarith)

/-- The gate's score and acceptance are monotone in the spec-side score when
the total weight is unchanged. -/
lemma gate_mono_of (r₁ r₂ : Snapshot) (hw : specTotalWeight r₁ = specTotalWeight r₂)
    (hs : specScore r₁ ≤ specScore r₂) :
    (isAcceptableForBaseline r₁).score ≤ (isAcceptableForBaseline r₂).score ∧
    ((isAcceptableForBaseline r₁).acceptable = true →
      (isAcceptableForBaseline r₂).acceptable = true) := by
  obtain ⟨hsc₁, hac₁⟩ := gate_char r₁
  obtain ⟨hsc₂, hac₂⟩ := gate_char r₂
  have hle : (isAcceptableForBaseline r₁).score ≤ (isAcceptableForBaseline r₂).score := by
    rw [hsc₁, hsc₂, hw]
    split_ifs with h
    · have h1 : specScore r₁ / specTotalWeight r₂ ≤ specScore r₂ / specTotalWeight r₂ :=
        (div_le_div_iff_of_pos_right h).mpr hs
      exact mul_le_mul_of_nonneg_right h1 (by norm_num)
    · exact le_refl 0
  refine ⟨hle, fun h1 => ?_⟩
  rw [hac₁] at h1
  rw [hac₂]
  exact decide_eq_true (le_trans (of_decide_eq_true h1) hle)

/-- C4: the Acceptance Gate adds each present metric's weight (performance
30, coverage 40, bundleSize 30) to the total weight, adds it to the score
only when the metric meets its bound (performance ≥ 70, coverage ≥ 60, size
in KB ≤ 1000), ignores absent metrics, normalizes by
`score/totalWeight*100` when the total weight is positive and returns 0
otherwise, accepts exactly when the percentage is at least 70, and in
particular a candidate with no metrics scores 0 and is not acceptable. -/
theorem acceptance_gate_characterization (r : Snapshot) :
    (isAcceptableForBaseline r).score =
      (if 0 < specTotalWeight r then specScore r / specTotalWeight r * 100 else 0) ∧
    ((isAcceptableForBaseline r).acceptable = true ↔
      70 ≤ (isAcceptableForBaseline r).score) ∧
    (r.performance = none → r.coverage = none → r.bundleSize = none →
      (isAcceptableForBaseline r).score = 0 ∧
      (isAcceptableForBaseline r).acceptable = false) := by
  obtain ⟨hsc, hac⟩ := gate_char r
  refine ⟨hsc, ?_, fun hp hc hb => ?_⟩
  · rw [hac]
    exact ⟨of_decide_eq_true, decide_eq_true⟩
  · have hw : specTotalWeight r = 0 := by
      simp [specTotalWeight, hp, hc, hb]
    have hz : (isAcceptableForBaseline r).score = 0 := by
      rw [hsc, hw]
      norm_num
    refine ⟨hz, ?_⟩
    rw [hac, hz]
    norm_num

/-- Witness for C4 at the empty candidate: it scores 0 and is rejected. -/
theorem acceptance_gate_characterization_witness :
    (isAcceptableForBaseline ⟨none, none, none, "t", "c", "b"⟩).score = 0 ∧
    (isAcceptableForBaseline ⟨none, none, none, "t", "c", "b"⟩).acceptable = false :=
  (acceptance_gate_characterization ⟨none, none, none, "t", "c", "b"⟩).2.2 rfl rfl rfl

/-- C2 counterexample: raising the present `bundleSize` metric from
1024000 bytes (1000 KB, passing) to 2048000 bytes (2000 KB, failing)
decreases both the score (100 to 0) and the acceptable status (true to
false), so raising a present metric's value can decrease the gate's
output. -/
theorem gate_monotonicity_counterexample :
    (1024000 : ℚ) ≤ 2048000 ∧
    (isAcceptableForBaseline ⟨none, none, some 1024000, "t", "c", "b"⟩).acceptable = true ∧
    (isAcceptableForBaseline ⟨none, none, some 1024000, "t", "c", "b"⟩).score = 100 ∧
    (isAcceptableForBaseline ⟨none, none, some 2048000, "t", "c", "b"⟩).acceptable = false ∧
    (isAcceptableForBaseline ⟨none, none, some 2048000, "t", "c", "b"⟩).score = 0 := by
  norm_num [isAcceptableForBaseline, jsRound]

/-- C2 amended: the gate is monotone in each present metric's desirable
direction — raising performance or coverage never decreases the score or the
acceptable status, while for bundleSize it is lowering the value that never
decreases them (raising bundleSize never increases them). -/
theorem gate_directional_monotonicity :
    (∀ (r : Snapshot) (p₁ p₂ : ℚ), p₁ ≤ p₂ →
      (isAcceptableForBaseline { r with performance := some p₁ }).score ≤
        (isAcceptableForBaseline { r with performance := some p₂ }).score ∧
      ((isAcceptableForBaseline { r with performance := some p₁ }).acceptable = true →
        (isAcceptableForBaseline { r with performance := some p₂ }).acceptable = true)) ∧
    (∀ (r : Snapshot) (c₁ c₂ : ℚ), c₁ ≤ c₂ →
      (isAcceptableForBaseline { r with coverage := some c₁ }).score ≤
        (isAcceptableForBaseline { r with coverage := some c₂ }).score ∧
      ((isAcceptableForBaseline { r with coverage := some c₁ }).acceptable = true →
        (isAcceptableForBaseline { r with coverage := some c₂ }).acceptable = true)) ∧
    (∀ (r : Snapshot) (b₁ b₂ : ℚ), b₁ ≤ b₂ →
      (isAcceptableForBaseline { r with bundleSize := some b₂ }).score ≤
        (isAcceptableForBaseline { r with bundleSize := some b₁ }).score ∧
      ((isAcceptableForBaseline { r with bundleSize := some b₂ }).acceptable = true →
        (isAcceptableForBaseline { r with bundleSize := some b₁ }).acceptable = true)) := by
  refine ⟨fun r p₁ p₂ h => ?_, fun r c₁ c₂ h => ?_, fun r b₁ b₂ h => ?_⟩
  · refine gate_mono_of _ _ (by simp [specTotalWeight]) ?_
    simp only [specScore, specPerfScore, specCovScore, specBundleScore]
    have : (if p₁ ≥ 70 then (30 : ℚ) else 0) ≤ (if p₂ ≥ 70 then (30 : ℚ) else 0) := by
      split_ifs with h₁ h₂ <;> first | exact absurd (le_trans h₁ h) h₂ | norm_num
    linarith
  · refine gate_mono_of _ _ (by simp [specTotalWeight]) ?_
    simp only [specScore, specPerfScore, specCovScore, specBundleScore]
    have : (if c₁ ≥ 60 then (40 : ℚ) else 0) ≤ (if c₂ ≥ 60 then (40 : ℚ) else 0) := by
      split_ifs with h₁ h₂ <;> first | exact absurd (le_trans h₁ h) h₂ | norm_num
    linarith
  · refine gate_mono_of _ _ (by simp [specTotalWeight]) ?_
    simp only [specScore, specPerfScore, specCovScore, specBundleScore]
    have hk : jsRound (b₁ / 1024) ≤ jsRound (b₂ / 1024) := by
      refine jsRound_mono ?_
      linarith
    have : (if jsRound (b₂ / 1024) ≤ 1000 then (30 : ℚ) else 0) ≤
        (if jsRound (b₁ / 1024) ≤ 1000 then (30 : ℚ) else 0) := by
      split_ifs with h₁ h₂ <;> first | exact absurd (le_trans hk h₁) h₂ | norm_num
    linarith

/-- Witness for C2 amended: raising performance 70 → 80 on an
otherwise-empty candidate keeps the score and acceptance monotone. -/
theorem gate_directional_monotonicity_witness :
    (isAcceptableForBaseline ⟨some 70, none, none, "t", "c", "b"⟩).score ≤
      (isAcceptableForBaseline ⟨some 80, none, none, "t", "c", "b"⟩).score ∧
    ((isAcceptableForBaseline ⟨some 70, none, none, "t", "c", "b"⟩).acceptable = true →
      (isAcceptableForBaseline ⟨some 80, none, none, "t", "c", "b"⟩).acceptable = true) :=
  gate_directional_monotonicity.1 ⟨none, none, none, "t", "c", "b"⟩ 70 80 (by norm_num)

/-- C9: a candidate whose performance (80) and coverage (70) pass but whose
bundle size (2048000 bytes = 2000 KB) exceeds the 1000 KB maximum scores
exactly (30+40)/100·100 = 70, which meets the acceptance threshold, while a
bundle-size issue is still reported. -/
theorem gate_acceptable_with_nonempty_issues :
    (isAcceptableForBaseline ⟨some 80, some 70, some 2048000, "t", "c", "b"⟩).acceptable = true ∧
    (isAcceptableForBaseline ⟨some 80, some 70, some 2048000, "t", "c", "b"⟩).score = 70 ∧
    (isAcceptableForBaseline ⟨some 80, some 70, some 2048000, "t", "c", "b"⟩).issues =
      [Issue.bundleTooLarge 2000] ∧
    (isAcceptableForBaseline ⟨some 80, some 70, some 2048000, "t", "c", "b"⟩).issues ≠ [] := by
  norm_num [isAcceptableForBaseline, jsRound]

/-- C5: `calculateDelta` returns no delta object at all when there is no
prior baseline; against a baseline it returns per-metric records
{current, baseline, change, changePercent}, and for snapshot performance 90
against baseline performance 80 the performance delta is
{current 90, baseline 80, change 10, changePercent 12.5}. -/
theorem delta_absent_without_baseline_and_example :
    (∀ current : Snapshot, calculateDelta current none = none) ∧
    calculateDelta ⟨some 90, none, none, "t", "c", "b"⟩
        (some ⟨"1.0.0", "t0", "c0", "main", some 80, none, none, ⟨"a", "r", "w", "i"⟩, none⟩) =
      some ⟨some ⟨90, 80, 10, some (.finite (25/2))⟩, none, none, "t", "c"⟩ := by
  refine ⟨fun current => rfl, ?_⟩
  norm_num [calculateDelta, jsDiv, JsNum.mul100]

/-- C3 counterexample: with current performance 10 against baseline
performance 0, `calculateDelta` still emits a `changePercent` field (JS
evaluates `(10/0)*100` to `Infinity`); the field is not omitted. -/
theorem delta_zero_baseline_counterexample :
    calculateDelta ⟨some 10, none, none, "t", "c", "b"⟩
        (some ⟨"1.0.0", "t0", "c0", "main", some 0, none, none, ⟨"a", "r", "w", "i"⟩, none⟩) =
      some ⟨some ⟨10, 0, 10, some JsNum.posInf⟩, none, none, "t", "c"⟩ ∧
    (some JsNum.posInf : Option JsNum) ≠ none := by
  refine ⟨?_, by simp⟩
  norm_num [calculateDelta, jsDiv, JsNum.mul100]

/-- How `((current - baseline)/baseline)*100` behaves under JS semantics:
finite for a nonzero baseline, a signed infinity or NaN for a zero one. -/
lemma mul100_jsDiv_char (c p : ℚ) :
    (p ≠ 0 → (jsDiv (c - p) p).mul100 = .finite ((c - p) / p * 100)) ∧
    (p = 0 → (jsDiv (c - p) p).mul100 =
      (if 0 < c then JsNum.posInf else if c < 0 then JsNum.negInf else JsNum.nan)) := by
  constructor
  · intro hp0
    simp [jsDiv, hp0, JsNum.mul100]
  · intro hp0
    subst hp0
    simp only [sub_zero, jsDiv]
    rw [if_neg (by simp)]
    split_ifs <;> rfl

/-- C3 amended: for each metric present (numeric) in both current and
baseline, the delta keeps `change = current - baseline` and always computes
`changePercent = (change/baseline)·100`; there is no division-by-zero guard,
so a zero baseline yields Infinity, -Infinity or NaN by the sign of the
change instead of omitting the field. -/
theorem delta_change_and_unguarded_percent (current : Snapshot) (b : Baseline) :
    (∀ c p : ℚ, current.performance = some c → b.performance = some p →
      ∃ d : Delta, calculateDelta current (some b) = some d ∧
        d.performance = some ⟨c, p, c - p, some ((jsDiv (c - p) p).mul100)⟩ ∧
        (p ≠ 0 → (jsDiv (c - p) p).mul100 = .finite ((c - p) / p * 100)) ∧
        (p = 0 → (jsDiv (c - p) p).mul100 =
          (if 0 < c then JsNum.posInf else if c < 0 then JsNum.negInf else JsNum.nan))) ∧
    (∀ c p : ℚ, current.coverage = some c → b.coverage = some p →
      ∃ d : Delta, calculateDelta current (some b) = some d ∧
        d.coverage = some ⟨c, p, c - p, some ((jsDiv (c - p) p).mul100)⟩ ∧
        (p ≠ 0 → (jsDiv (c - p) p).mul100 = .finite ((c - p) / p * 100)) ∧
        (p = 0 → (jsDiv (c - p) p).mul100 =
          (if 0 < c then JsNum.posInf else if c < 0 then JsNum.negInf else JsNum.nan))) ∧
    (∀ c p : ℚ, current.bundleSize = some c → b.bundleSize = some p →
      ∃ d : Delta, calculateDelta current (some b) = some d ∧
        d.bundleSize = some ⟨c, p, c - p, some ((jsDiv (c - p) p).mul100)⟩ ∧
        (p ≠ 0 → (jsDiv (c - p) p).mul100 = .finite ((c - p) / p * 100)) ∧
        (p = 0 → (jsDiv (c - p) p).mul100 =
          (if 0 < c then JsNum.posInf else if c < 0 then JsNum.negInf else JsNum.nan))) := by
  refine ⟨fun c p hc hp => ⟨_, rfl, ?_, (mul100_jsDiv_char c p).1, (mul100_jsDiv_char c p).2⟩,
    fun c p hc hp => ⟨_, rfl, ?_, (mul100_jsDiv_char c p).1, (mul100_jsDiv_char c p).2⟩,
    fun c p hc hp => ⟨_, rfl, ?_, (mul100_jsDiv_char c p).1, (mul100_jsDiv_char c p).2⟩⟩ <;>
    simp [calculateDelta, hc, hp]

/-- Witness for C3 amended at current performance 10, baseline performance
0: the delta entry is present with change 10 and changePercent Infinity. -/
theorem delta_change_and_unguarded_percent_witness :
    ∃ d : Delta,
      calculateDelta ⟨some 10, none, none, "t", "c", "b"⟩
          (some ⟨"1.0.0", "t0", "c0", "main", some 0, none, none, ⟨"a", "r", "w", "i"⟩, none⟩) =
        some d ∧
      d.performance = some ⟨10, 0, 10 - 0, some ((jsDiv (10 - 0) 0).mul100)⟩ ∧
      ((0:ℚ) ≠ 0 → (jsDiv (10 - 0) 0).mul100 = .finite ((10 - 0) / 0 * 100)) ∧
      ((0:ℚ) = 0 → (jsDiv (10 - 0) 0).mul100 =
        (if 0 < (10:ℚ) then JsNum.posInf else if (10:ℚ) < 0 then JsNum.negInf else JsNum.nan)) :=
  (delta_change_and_unguarded_percent ⟨some 10, none, none, "t", "c", "b"⟩
    ⟨"1.0.0", "t0", "c0", "main", some 0, none, none, ⟨"a", "r", "w", "i"⟩, none⟩).1 10 0 rfl rfl

/-- C6: after every history update the length is at most 50, and appending
an entry to a full 50-entry history evicts exactly the single oldest entry
while preserving the order of the rest. -/
theorem history_cap_invariant (history : List HistoryEntry) (b : Baseline) :
    (updateHistory history b).length ≤ 50 ∧
    (history.length = 50 →
      updateHistory history b = history.drop 1 ++ [historyEntryOf b]) := by
  constructor
  · simp only [updateHistory]
    split_ifs with h
    · rw [List.length_drop]
      omega
    · rw [List.length_append] at h ⊢
      simp only [List.length_cons, List.length_nil] at h ⊢
      omega
  · intro h50
    simp only [updateHistory]
    have h1 : (history ++ [historyEntryOf b]).length = 51 := by
      simp [h50]
    rw [if_pos (by rw [h1]; norm_num), h1,
      List.drop_append_of_le_length (by rw [h50]; norm_num)]

/-- Witness for C6 at a concrete full 50-entry history. -/
theorem history_cap_invariant_witness :
    (List.replicate 50 (⟨"t0", "c0", "b0", none, none, none, "a", "i"⟩ : HistoryEntry)).length
      = 50 ∧
    updateHistory (List.replicate 50 ⟨"t0", "c0", "b0", none, none, none, "a", "i"⟩)
        ⟨"1.0.0", "t", "c", "b", none, none, none, ⟨"a", "r", "w", "i"⟩, none⟩ =
      (List.replicate 50 (⟨"t0", "c0", "b0", none, none, none, "a", "i"⟩ : HistoryEntry)).drop 1
        ++ [historyEntryOf ⟨"1.0.0", "t", "c", "b", none, none, none, ⟨"a", "r", "w", "i"⟩, none⟩] :=
  ⟨by simp, (history_cap_invariant _ _).2 (by simp)⟩

/-- C1 (bug exhibit): `analyzeTrend` classifies against the threshold
`inverse ? -1 : 1` instead of the sign of the slope.  For non-inverse values
[0, 0.7] the slope is 0.7 > 0, yet the result is "worsening" with direction
"decreasing"; for inverse values [1, 0.3] the slope is -0.7 < 0 (bundle
shrinking, which the code's own comment calls good), yet the result is
"worsening" with direction "increasing". -/
theorem analyzeTrend_threshold_bug :
    analyzeTrend [0, 7/10] false = ⟨.worsening, some (7/10), some .decreasing⟩ ∧
    analyzeTrend [1, 3/10] true = ⟨.worsening, some (-(7/10)), some .increasing⟩ := by
  constructor <;>
    norm_num [analyzeTrend, slopeOf, slopeDenominator, xSum, ySum, xySum, x2Sum, abs_lt,
      List.enum_cons, List.enumFrom_cons, List.enumFrom_nil]

/-- Index sums over an enumerated list depend only on the length. -/
lemma enumFrom_idx_map_sum (g : ℕ → ℚ) :
    ∀ (l : List ℚ) (k : ℕ),
      ((l.enumFrom k).map (fun p => g p.1)).sum =
        ((List.range l.length).map (fun i => g (i + k))).sum := by
  intro l
  induction l with
  | nil => intro k; simp
  | cons a t ih =>
    intro k
    rw [List.enumFrom_cons, List.map_cons, List.sum_cons, ih (k + 1)]
    rw [List.length_cons, List.range_succ_eq_map, List.map_cons, List.sum_cons,
      List.map_map]
    have hfun : (fun i : ℕ => g (i + (k + 1))) = (fun i : ℕ => g (i + k)) ∘ Nat.succ := by
      funext i
      simp only [Function.comp]
      congr 1
      omega
    rw [hfun]
    simp

/-- `x2Sum` only reads the indices, so it is a sum over `range`. -/
lemma x2Sum_eq_range (values : List ℚ) :
    x2Sum values = ((List.range values.length).map (fun i : ℕ => (i : ℚ) * (i : ℚ))).sum := by
  unfold x2Sum
  have he : values.enum = values.enumFrom 0 := rfl
  rw [he, enumFrom_idx_map_sum (fun i : ℕ => (i : ℚ) * (i : ℚ)) values 0]
  simp only [Nat.add_zero]

/-- Closed form of the sum of squared indices. -/
lemma range_sq_sum (n : ℕ) :
    ((List.range n).map (fun i : ℕ => (i : ℚ) * (i : ℚ))).sum =
      (n : ℚ) * ((n : ℚ) - 1) * (2 * (n : ℚ) - 1) / 6 := by
  induction n with
  | zero => simp
  | succ m ih =>
    rw [List.range_succ, List.map_append, List.sum_append, ih]
    simp only [List.map_cons, List.map_nil, List.sum_cons, List.sum_nil, add_zero]
    push_cast
    ring

/-- C10: with at least 2 values the slope denominator `n·Σ(x²) - (Σx)²`
equals `n²(n²-1)/12` and is strictly positive, so the slope computation
never divides by zero. -/
theorem slope_denominator_positive (values : List ℚ) (h : 2 ≤ values.length) :
    slopeDenominator values =
      ((values.length : ℚ)) ^ 2 * (((values.length : ℚ)) ^ 2 - 1) / 12 ∧
    0 < slopeDenominator values := by
  have hde : slopeDenominator values =
      ((values.length : ℚ)) ^ 2 * (((values.length : ℚ)) ^ 2 - 1) / 12 := by
    unfold slopeDenominator xSum
    rw [x2Sum_eq_range, range_sq_sum]
    ring
  refine ⟨hde, ?_⟩
  rw [hde]
  have h2 : (2 : ℚ) ≤ (values.length : ℚ) := by exact_mod_cast h
  have h4 : (4 : ℚ) ≤ ((values.length : ℚ)) ^ 2 := by nlinarith
  have hpos : 0 < ((values.length : ℚ)) ^ 2 * (((values.length : ℚ)) ^ 2 - 1) := by nlinarith
  exact div_pos hpos (by norm_num)

/-- Witness for C10 at the two-element list [1, 2]. -/
theorem slope_denominator_positive_witness :
    slopeDenominator [(1 : ℚ), 2] =
      ((([(1 : ℚ), 2].length : ℕ) : ℚ)) ^ 2 * (((([(1 : ℚ), 2].length : ℕ) : ℚ)) ^ 2 - 1) / 12 ∧
    0 < slopeDenominator [(1 : ℚ), 2] :=
  slope_denominator_positive [1, 2] (by norm_num)

/-- C7: when the Acceptance Gate rejects, `run` writes exactly the rejection
record {timestamp, commit, reason "metrics_not_acceptable", score, issues},
leaves the baseline and history files untouched, and exits with code 0. -/
theorem run_rejection_frame (env : Env) (results : Snapshot) (fs : FS)
    (hMain : checkIfMainBranch env.refName = true)
    (hEvent : env.eventName = "push")
    (hReject : (isAcceptableForBaseline results).acceptable = false) :
    run env (.ok results) fs =
      ⟨{ fs with
          rejectionFile := some
            { timestamp := env.now
              commit := results.commit
              reason := "metrics_not_acceptable"
              score := (isAcceptableForBaseline results).score
              issues := (isAcceptableForBaseline results).issues } }, 0⟩ ∧
    (run env (.ok results) fs).fs.baselineFile = fs.baselineFile ∧
    (run env (.ok results) fs).fs.historyFile = fs.historyFile ∧
    (run env (.ok results) fs).exitCode = 0 := by
  have hrun : run env (.ok results) fs =
      ⟨{ fs with
          rejectionFile := some
            { timestamp := env.now
              commit := results.commit
              reason := "metrics_not_acceptable"
              score := (isAcceptableForBaseline results).score
              issues := (isAcceptableForBaseline results).issues } }, 0⟩ := by
    simp [run, hMain, hEvent, hReject]
  refine ⟨hrun, ?_, ?_, ?_⟩ <;> rw [hrun]

/-- Witness for C7: a low-performance candidate on branch main with a push
event is rejected, only the rejection file is written, and the exit is 0. -/
theorem run_rejection_frame_witness :
    run ⟨"main", "push", "now", "act", "repo", "wf", "run1"⟩
        (.ok ⟨some 10, none, none, "t", "c", "b"⟩)
        ⟨.absent, .absent, none, none, none⟩ =
      ⟨{ (⟨.absent, .absent, none, none, none⟩ : FS) with
          rejectionFile := some
            { timestamp := "now"
              commit := "c"
              reason := "metrics_not_acceptable"
              score := (isAcceptableForBaseline ⟨some 10, none, none, "t", "c", "b"⟩).score
              issues := (isAcceptableForBaseline ⟨some 10, none, none, "t", "c", "b"⟩).issues } },
        0⟩ ∧
    (run ⟨"main", "push", "now", "act", "repo", "wf", "run1"⟩
        (.ok ⟨some 10, none, none, "t", "c", "b"⟩)
        ⟨.absent, .absent, none, none, none⟩).fs.baselineFile = .absent ∧
    (run ⟨"main", "push", "now", "act", "repo", "wf", "run1"⟩
        (.ok ⟨some 10, none, none, "t", "c", "b"⟩)
        ⟨.absent, .absent, none, none, none⟩).fs.historyFile = .absent ∧
    (run ⟨"main", "push", "now", "act", "repo", "wf", "run1"⟩
        (.ok ⟨some 10, none, none, "t", "c", "b"⟩)
        ⟨.absent, .absent, none, none, none⟩).exitCode = 0 :=
  run_rejection_frame ⟨"main", "push", "now", "act", "repo", "wf", "run1"⟩
    ⟨some 10, none, none, "t", "c", "b"⟩ ⟨.absent, .absent, none, none, none⟩
    (by decide) rfl (by norm_num [isAcceptableForBaseline])

/-- With a readable candidate snapshot, `run` always exits 0 (rejection and
acceptance are both successful terminations). -/
lemma run_ok_exit_zero (env : Env) (results : Snapshot) (fs : FS) :
    (run env (.ok results) fs).exitCode = 0 := by
  simp only [run]
  split_ifs <;> rfl

/-- C8: a malformed persisted baseline loads as absent and a malformed
history loads as empty, each with a logged warning, and a run over such
state still terminates successfully (exit code 0). -/
theorem corrupt_state_recovery (env : Env) (results : Snapshot) (fs : FS)
    (hb : fs.baselineFile = .malformed)
    (hh : fs.historyFile = .malformed) :
    loadBaseline fs.baselineFile = (none, true) ∧
    loadHistory fs.historyFile = ([], true) ∧
    (run env (.ok results) fs).exitCode = 0 := by
  rw [hb, hh]
  exact ⟨rfl, rfl, run_ok_exit_zero env results fs⟩

/-- Witness for C8 at a concrete state whose baseline and history files are
both malformed. -/
theorem corrupt_state_recovery_witness :
    loadBaseline (FS.baselineFile ⟨.malformed, .malformed, none, none, none⟩) = (none, true) ∧
    loadHistory (FS.historyFile ⟨.malformed, .malformed, none, none, none⟩) = ([], true) ∧
    (run ⟨"main", "push", "now", "act", "repo", "wf", "run1"⟩
        (.ok ⟨some 90, some 80, some 1024, "t", "c", "b"⟩)
        ⟨.malformed, .malformed, none, none, none⟩).exitCode = 0 :=
  corrupt_state_recovery ⟨"main", "push", "now", "act", "repo", "wf", "run1"⟩
    ⟨some 90, some 80, some 1024, "t", "c", "b"⟩
    ⟨.malformed, .malformed, none, none, none⟩ rfl rfl

end CICDSymphony
